import Mathlib

/-!
Shallow embedding of `app/video_merger.py`: the media-stitching pipeline that
stitches a local clip before a remote video reference via ffmpeg/ffprobe/yt-dlp.

External effects (subprocess runs, filesystem tests, downloads) are modelled by
an explicit `Env` of oracle outcomes; each embedded function returns its Python
result (`Except PyExc`) together with the ordered list of side-effect `Event`s
it performs.
-/

deriving instance DecidableEq for Except

namespace VideoMerger

/-- Python whitespace characters recognised by `str.strip()`. -/
def pyWhitespace : List Char := [' ', '\t', '\n', '\r', '\x0b', '\x0c']

def isPySpace (c : Char) : Bool := pyWhitespace.contains c

/-- Implements `str.strip()` on the character list: drop whitespace on both ends. -/
def stripChars (l : List Char) : List Char :=
  ((l.dropWhile isPySpace).reverse.dropWhile isPySpace).reverse

/-- Python `str.strip()`. -/
def pyStrip (s : String) : String := String.mk (stripChars s.data)

/-- Python `str.splitlines()` line breaks: `\r\n`, `\r`, `\n`.
(Trailing empty segments are kept here; callers filter blank lines anyway.) -/
def splitLinesChars : List Char → List (List Char)
  | [] => [[]]
  | '\r' :: '\n' :: cs => [] :: splitLinesChars cs
  | '\r' :: cs => [] :: splitLinesChars cs
  | '\n' :: cs => [] :: splitLinesChars cs
  | c :: cs =>
    match splitLinesChars cs with
    | [] => [[c]]
    | l :: ls => (c :: l) :: ls

/-- Implements `[line.strip() for line in s.splitlines() if line.strip()]`. -/
def cleanLines (s : String) : List String :=
  (((splitLinesChars s.data).map stripChars).filter (fun l => !l.isEmpty)).map String.mk

def digitsToNatAux : List Char → Nat → Option Nat
  | [], acc => some acc
  | c :: cs, acc =>
    if c.isDigit then digitsToNatAux cs (acc * 10 + (c.toNat - '0'.toNat)) else none

def digitsToNat : List Char → Option Nat
  | [] => none
  | c :: cs => digitsToNatAux (c :: cs) 0

/-- Python `int(s)` on an already-stripped decimal string: optional sign then digits. -/
def pyIntChars : List Char → Option Int
  | '-' :: cs => (digitsToNat cs).map (fun n => -(n : Int))
  | '+' :: cs => (digitsToNat cs).map (fun n => (n : Int))
  | cs => (digitsToNat cs).map (fun n => (n : Int))

def pyInt (s : String) : Option Int := pyIntChars (stripChars s.data)

def asciiLower (c : Char) : Char :=
  if 'A' ≤ c ∧ c ≤ 'Z' then Char.ofNat (c.toNat + 32) else c

/-- Python `str.lower()` (ASCII range, which covers URLs and domain names). -/
def pyLower (s : String) : String := String.mk (s.data.map asciiLower)

def isPrefixL : List Char → List Char → Bool
  | [], _ => true
  | _ :: _, [] => false
  | a :: as, b :: bs => a == b && isPrefixL as bs

def containsL (needle : List Char) : List Char → Bool
  | [] => isPrefixL needle []
  | c :: rest => isPrefixL needle (c :: rest) || containsL needle rest

/-- Python `needle in hay` on strings: substring containment. -/
def pyIn (needle hay : String) : Bool := containsL needle.data hay.data

/-! ## Data model -/

/-- The Python exceptions the pipeline can raise or let propagate. -/
inductive PyExc
  | fileNotFoundError (msg : String)
  | runtimeError (msg : String)
  | calledProcessError (argv : List String)
  | valueError (msg : String)
  | osError (msg : String)
deriving DecidableEq

/-- Observable side effects, in the order the pipeline performs them. -/
inductive Event
  | runProc (argv : List String)
  | copyFile (src dst : String)
  | ytdlpDownload (url dst : String)
  | mkdirParents (dir : String)
  | createTmpDir (dir : String)
  | removeTmpDir (dir : String)
deriving DecidableEq

/-- Oracle outcomes for every external effect a single merge call can make:
filesystem queries, path resolution, and the result of each tool invocation. -/
structure Env where
  pathExists : String → Bool
  /-- result of `Path(s).expanduser()` -/
  expanduser : String → String
  /-- result of `Path(s).expanduser().resolve()` -/
  expandResolve : String → String
  /-- result of `Path(s).parent` -/
  parentOf : String → String
  /-- name handed out by `tempfile.TemporaryDirectory()` -/
  tmpdirName : String
  ffmpegOnPath : Bool
  /-- whether `ffmpeg -version` exits 0 -/
  ffmpegVersionOk : Bool
  ffprobeOnPath : Bool
  /-- stdout of the dimensions ffprobe on a path; `none` = non-zero exit -/
  probeDimsOut : String → Option String
  /-- stdout of the audio-stream ffprobe on a path; `none` = non-zero exit -/
  probeAudioOut : String → Option String
  /-- whether `shutil.copy2` succeeds -/
  copyOk : Bool
  /-- the `yt_dlp` module imports -/
  ytdlpInstalled : Bool
  /-- the yt-dlp download produces the expected file -/
  ytdlpOk : Bool
  /-- the ffmpeg stream-copy download exits 0 -/
  ffmpegDownloadOk : Bool
  /-- the ffmpeg rescale exits 0 -/
  scaleOk : Bool
  /-- the ffmpeg concatenation exits 0 -/
  concatOk : Bool

/-- Result of one embedded call: Python outcome plus ordered effect trace. -/
abbrev PyResult (α : Type) := Except PyExc α × List Event

/-- Sequencing that mirrors Python exception propagation: if `x` raises, the
continuation never runs and contributes no effects. -/
def seqE {α β : Type} (x : PyResult α) (f : α → PyResult β) : PyResult β :=
  match x with
  | (Except.error e, t) => (Except.error e, t)
  | (Except.ok a, t) => ((f a).1, t ++ (f a).2)

/-! ## Embedded source functions -/

/-- Constant `STREAMING_DOMAINS` from `video_merger.py`. -/
def STREAMING_DOMAINS : List String :=
  ["youtube.com", "youtu.be", "x.com", "twitter.com", "tiktok.com",
   "vimeo.com", "bitchute.com", "rumble.com"]

/-- Embeds `_ensure_ffmpeg_available`: run `ffmpeg -version`, mapping
`FileNotFoundError` and `CalledProcessError` to distinct `RuntimeError`s. -/
def ensure_ffmpeg_available (env : Env) : PyResult Unit :=
  if env.ffmpegOnPath = false then
    (Except.error (PyExc.runtimeError "ffmpeg is required to merge videos; please install it."), [])
  else if env.ffmpegVersionOk = false then
    (Except.error (PyExc.runtimeError "Unable to run ffmpeg binary."),
     [Event.runProc ["ffmpeg", "-version"]])
  else
    (Except.ok (), [Event.runProc ["ffmpeg", "-version"]])

/-- argv of the audio-presence ffprobe in `_has_audio_stream`. -/
def audioProbeCmd (p : String) : List String :=
  ["ffprobe", "-v", "error", "-select_streams", "a", "-show_entries",
   "stream=index", "-of", "default=noprint_wrappers=1:nokey=1", p]

/-- The parse `_has_audio_stream` applies to ffprobe stdout:
`bool(result.stdout.strip())`. -/
def hasAudioParse (out : String) : Bool := !(stripChars out.data).isEmpty

/-- Embeds `_has_audio_stream`. -/
def has_audio_stream (env : Env) (p : String) : PyResult Bool :=
  if env.ffprobeOnPath = false then
    (Except.error (PyExc.runtimeError "ffprobe is required to inspect audio tracks."), [])
  else
    match env.probeAudioOut p with
    | none =>
      (Except.error (PyExc.runtimeError ("ffprobe could not analyze " ++ p ++ ".")),
       [Event.runProc (audioProbeCmd p)])
    | some out => (Except.ok (hasAudioParse out), [Event.runProc (audioProbeCmd p)])

/-- argv of the dimensions ffprobe in `_probe_video_dimensions`. -/
def dimsProbeCmd (p : String) : List String :=
  ["ffprobe", "-v", "error", "-select_streams", "v:0", "-show_entries",
   "stream=width,height", "-of", "default=noprint_wrappers=1:nokey=1", p]

/-- The parse `_probe_video_dimensions` applies to ffprobe stdout:
strip/filter the lines, fail if fewer than two remain, else `int()` the
first two (an unparsable line propagates Python's `ValueError`). -/
def dimsParse (p out : String) : Except PyExc (Int × Int) :=
  match cleanLines out with
  | l0 :: l1 :: _ =>
    match pyInt l0, pyInt l1 with
    | some w, some h => Except.ok (w, h)
    | _, _ => Except.error (PyExc.valueError "invalid literal for int() with base 10")
  | _ => Except.error (PyExc.runtimeError ("Unable to determine dimensions for " ++ p))

/-- Embeds `_probe_video_dimensions`. -/
def probe_video_dimensions (env : Env) (p : String) : PyResult (Int × Int) :=
  if env.ffprobeOnPath = false then
    (Except.error (PyExc.runtimeError "ffprobe is required to inspect video streams."), [])
  else
    match env.probeDimsOut p with
    | none =>
      (Except.error (PyExc.runtimeError ("ffprobe could not analyze " ++ p ++ ".")),
       [Event.runProc (dimsProbeCmd p)])
    | some out => (dimsParse p out, [Event.runProc (dimsProbeCmd p)])

/-- The `-vf` filter string built by `_scale_video_to_target`. -/
def scaleVf (w h : Int) : String :=
  "scale=" ++ toString w ++ ":" ++ toString h ++ ":force_original_aspect_ratio=decrease," ++
  "pad=" ++ toString w ++ ":" ++ toString h ++ ":(ow-iw)/2:(oh-ih)/2"

/-- argv of the ffmpeg rescale in `_scale_video_to_target`. -/
def scaleCmd (source : String) (w h : Int) (destination : String) : List String :=
  ["ffmpeg", "-y", "-i", source, "-vf", scaleVf w h, "-c:v", "libx264",
   "-preset", "fast", "-pix_fmt", "yuv420p", "-c:a", "copy", destination]

/-- Embeds `_scale_video_to_target` (`check=True`, no try/except: a non-zero exit
propagates as `CalledProcessError`). -/
def scale_video_to_target (env : Env) (source : String) (target : Int × Int)
    (destination : String) : PyResult Unit :=
  if env.ffmpegOnPath = false then
    (Except.error (PyExc.fileNotFoundError "ffmpeg"), [])
  else if env.scaleOk then
    (Except.ok (), [Event.runProc (scaleCmd source target.1 target.2 destination)])
  else
    (Except.error (PyExc.calledProcessError (scaleCmd source target.1 target.2 destination)),
     [Event.runProc (scaleCmd source target.1 target.2 destination)])

/-- The `filter_complex` graph chosen by `_concat_with_reencoding`. -/
def concatFilterGraph (includeAudio : Bool) : String :=
  if includeAudio then "[0:v][0:a][1:v][1:a]concat=n=2:v=1:a=1[v][a]"
  else "[0:v][1:v]concat=n=2:v=1:a=0[v]"

/-- argv of the ffmpeg concatenation in `_concat_with_reencoding`. -/
def concatCmd (localPath remotePath outputPath : String) (includeAudio : Bool) :
    List String :=
  ["ffmpeg", "-y", "-i", localPath, "-i", remotePath, "-filter_complex",
   concatFilterGraph includeAudio, "-map", "[v]", "-c:v", "libx264",
   "-preset", "fast", "-pix_fmt", "yuv420p"] ++
  (if includeAudio then ["-map", "[a]", "-c:a", "aac", "-b:a", "192k", "-ar", "44100"]
   else []) ++
  [outputPath]

/-- Embeds `_concat_with_reencoding` (`check=True`, no try/except). -/
def concat_with_reencoding (env : Env) (localPath remotePath outputPath : String)
    (includeAudio : Bool) : PyResult Unit :=
  if env.ffmpegOnPath = false then
    (Except.error (PyExc.fileNotFoundError "ffmpeg"), [])
  else if env.concatOk then
    (Except.ok (), [Event.runProc (concatCmd localPath remotePath outputPath includeAudio)])
  else
    (Except.error (PyExc.calledProcessError (concatCmd localPath remotePath outputPath includeAudio)),
     [Event.runProc (concatCmd localPath remotePath outputPath includeAudio)])

/-- Embeds `_is_streaming_url`: substring test of each domain against the lowercased URL. -/
def is_streaming_url (remoteUrl : String) : Bool :=
  STREAMING_DOMAINS.any (fun domain => pyIn domain (pyLower remoteUrl))

/-- Embeds `_download_with_ytdlp`: import `yt_dlp`, mkdir the destination's parent,
download `bestvideo+bestaudio/best` (library internals abstracted into
`env.ytdlpOk`), and fail if the downloaded file is absent. -/
def download_with_ytdlp (env : Env) (remoteUrl destination : String) : PyResult Unit :=
  if env.ytdlpInstalled = false then
    (Except.error (PyExc.runtimeError "yt-dlp is required for streaming URLs like X/YouTube"), [])
  else if env.ytdlpOk then
    (Except.ok (),
     [Event.mkdirParents (env.parentOf destination), Event.ytdlpDownload remoteUrl destination])
  else
    (Except.error (PyExc.runtimeError ("yt-dlp failed to download " ++ remoteUrl)),
     [Event.mkdirParents (env.parentOf destination), Event.ytdlpDownload remoteUrl destination])

/-- argv of the ffmpeg stream-copy download in `_download_remote_clip`. -/
def downloadCmd (remoteUrl destination : String) : List String :=
  ["ffmpeg", "-y", "-i", remoteUrl, "-c", "copy", destination]

/-- Embeds `_download_remote_clip` (`check=True`, no try/except). -/
def download_remote_clip (env : Env) (remoteUrl destination : String) : PyResult Unit :=
  if env.ffmpegOnPath = false then
    (Except.error (PyExc.fileNotFoundError "ffmpeg"), [])
  else if env.ffmpegDownloadOk then
    (Except.ok (), [Event.runProc (downloadCmd remoteUrl destination)])
  else
    (Except.error (PyExc.calledProcessError (downloadCmd remoteUrl destination)),
     [Event.runProc (downloadCmd remoteUrl destination)])

/-- Embeds `_prepare_remote_clip`: existing local path ⇒ `copy2`; else streaming
URL ⇒ yt-dlp; else ffmpeg stream copy. -/
def prepare_remote_clip (env : Env) (remoteUrl destination : String) : PyResult Unit :=
  let candidate := env.expanduser remoteUrl
  if env.pathExists candidate then
    (if env.copyOk then Except.ok ()
     else Except.error (PyExc.osError ("could not copy " ++ candidate)),
     [Event.copyFile candidate destination])
  else if is_streaming_url remoteUrl then
    download_with_ytdlp env remoteUrl destination
  else
    download_remote_clip env remoteUrl destination

/-- Body of the `with tempfile.TemporaryDirectory()` block of
`merge_local_with_remote` (lines 255–272). -/
def mergeBody (env : Env) (localR remoteUrl tmpdir outputR : String) : PyResult String :=
  seqE (prepare_remote_clip env remoteUrl (tmpdir ++ "/remote.mp4")) (fun _ =>
  seqE (probe_video_dimensions env localR) (fun localSize =>
  seqE (probe_video_dimensions env (tmpdir ++ "/remote.mp4")) (fun remoteSize =>
  seqE (if localSize ≠ remoteSize then
          seqE (scale_video_to_target env (tmpdir ++ "/remote.mp4") localSize
                  (tmpdir ++ "/remote_scaled.mp4"))
            (fun _ => (Except.ok (tmpdir ++ "/remote_scaled.mp4"), []))
        else (Except.ok (tmpdir ++ "/remote.mp4"), [])) (fun normalizedRemote =>
  seqE (has_audio_stream env localR) (fun localHasAudio =>
  seqE (has_audio_stream env normalizedRemote) (fun remoteHasAudio =>
  seqE (concat_with_reencoding env localR normalizedRemote outputR
          (localHasAudio && remoteHasAudio)) (fun _ =>
  (Except.ok outputR, []))))))))

/-- Embeds `merge_local_with_remote`. The `with tempfile.TemporaryDirectory()` block
creates the directory and removes it (with everything inside) on every exit
path, success or exception, per Python context-manager semantics. -/
def merge_local_with_remote (env : Env) (localPath remoteUrl outputPath : String) :
    PyResult String :=
  let localR := env.expandResolve localPath
  if env.pathExists localR = false then
    (Except.error (PyExc.fileNotFoundError ("Local video does not exist: " ++ localR)), [])
  else
    seqE (ensure_ffmpeg_available env) (fun _ =>
      let outputR := env.expandResolve outputPath
      let body := mergeBody env localR remoteUrl env.tmpdirName outputR
      (body.1,
       [Event.mkdirParents (env.parentOf outputR), Event.createTmpDir env.tmpdirName] ++
       body.2 ++ [Event.removeTmpDir env.tmpdirName]))

/-! ## Derived classifier and spec-side definitions -/

/-- The three acquisition strategies of the Remote Resolver. -/
inductive Strategy
  | localCopy
  | ytdlp
  | ffmpegCopy
deriving DecidableEq

/-- Which strategy `prepare_remote_clip` dispatches to, read off its branches. -/
def chosenStrategy (env : Env) (remoteUrl : String) : Strategy :=
  if env.pathExists (env.expanduser remoteUrl) then Strategy.localCopy
  else if is_streaming_url remoteUrl then Strategy.ytdlp
  else Strategy.ffmpegCopy

/-- Characters after the first occurrence of `://`, or `[]` when there is none. -/
def afterScheme (l : List Char) : List Char :=
  match l.dropWhile (fun c => !(c == ':')) with
  | ':' :: '/' :: '/' :: rest => rest
  | _ => []

/-- Modelled from the spec: "the reference's host" — the authority component of
a URL, i.e. what stands between the `://` of the scheme and the next `/`, `:`
or `?`, lowercased. The source has no host extraction; this definition exists
only to compare the spec's host-matching wording with the code's substring
test. -/
def specUrlHost (u : String) : String :=
  String.mk ((afterScheme (pyLower u).data).takeWhile
    (fun c => !(c == '/') && !(c == ':') && !(c == '?')))

/-- Decimal digit characters of `n`, most significant first (`fuel`-bounded). -/
def natCharsAux : Nat → Nat → List Char
  | 0, _ => []
  | fuel + 1, n =>
    if n < 10 then [Char.ofNat (48 + n)]
    else natCharsAux fuel (n / 10) ++ [Char.ofNat (48 + n % 10)]

/-- Decimal rendering of a natural number. -/
def natChars (n : Nat) : List Char := natCharsAux (n + 1) n

/-- Modelled from the spec: ffprobe's `default=noprint_wrappers=1:nokey=1`
output for `stream=index` over the audio streams — the decimal index of each
audio stream on its own line. The ffprobe tool is external to the repository. -/
def renderIndices (idxs : List Nat) : String :=
  String.mk (idxs.foldr (fun i acc => natChars i ++ '\n' :: acc) [])

/-- Recognises the argv of a rescale invocation: only `_scale_video_to_target`
builds a command whose fifth entry is `-vf`. -/
def isScaleInvocation : Event → Bool
  | Event.runProc argv => argv[4]? == some "-vf"
  | _ => false

/-- Recognises temporary-directory creation events. -/
def isCreateTmp : Event → Bool
  | Event.createTmpDir _ => true
  | _ => false

/-- Modelled from the spec: output dimensions of ffmpeg
`scale=w:h:force_original_aspect_ratio=decrease` — the largest box that fits
inside `(w, h)` while keeping the source aspect ratio `sw : sh`, over ℚ.
The ffmpeg tool is external to the repository. -/
def scaleFitDims (sw sh w h : ℚ) : ℚ × ℚ :=
  if sw * h ≤ w * sh then (sw * (h / sh), h) else (w, sh * (w / sw))

/-- Modelled from the spec: ffmpeg `pad=w:h:(ow-iw)/2:(oh-ih)/2` — canvas of
exactly `(w, h)` with the inner clip of size `(iw, ih)` placed at the centred
offset. Returns (canvas size, inner offset). -/
def padCentered (iw ih w h : ℚ) : (ℚ × ℚ) × (ℚ × ℚ) :=
  ((w, h), ((w - iw) / 2, (h - ih) / 2))

/-! ## Concrete environments for witnesses and counterexamples -/

/-- An environment where every tool succeeds, the local and remote clips have
equal dimensions and both have audio, and resolution prefixes `/root/`. -/
def envAllOk : Env where
  pathExists := fun _ => true
  expanduser := fun s => s
  expandResolve := fun s => "/root/" ++ s
  parentOf := fun _ => "/root"
  tmpdirName := "/tmp/t0"
  ffmpegOnPath := true
  ffmpegVersionOk := true
  ffprobeOnPath := true
  probeDimsOut := fun _ => some "1280\n720\n"
  probeAudioOut := fun _ => some "0\n"
  copyOk := true
  ytdlpInstalled := true
  ytdlpOk := true
  ffmpegDownloadOk := true
  scaleOk := true
  concatOk := true

/-- Like `envAllOk` but the remote working file probes at 640×480 (so a
rescale is required) and the remote has no audio stream. -/
def envMismatch : Env :=
  { envAllOk with
    probeDimsOut := fun p => if p == "/tmp/t0/remote.mp4" then some "640\n480\n"
                             else some "1280\n720\n"
    probeAudioOut := fun p => if p == "/tmp/t0/remote.mp4" ∨ p == "/tmp/t0/remote_scaled.mp4"
                              then some "" else some "0\n" }

/-- An environment where no candidate remote path exists on disk. -/
def envNoLocal : Env := { envAllOk with pathExists := fun _ => false }

/-- Like `envAllOk` but the dimensions ffprobe prints three non-empty lines. -/
def envThreeLines : Env := { envAllOk with probeDimsOut := fun _ => some "10\n20\n30\n" }

/-! ## Helper lemmas -/

lemma seqE_eq_ok {α β : Type} (x : PyResult α) (f : α → PyResult β) (a : α)
    (h : x.1 = Except.ok a) : seqE x f = ((f a).1, x.2 ++ (f a).2) := by
  obtain ⟨r, t⟩ := x
  cases r with
  | error e => simp at h
  | ok b =>
    obtain rfl : b = a := by simpa using h
    rfl

lemma seqE_eq_error {α β : Type} (x : PyResult α) (f : α → PyResult β) (e : PyExc)
    (h : x.1 = Except.error e) : seqE x f = (Except.error e, x.2) := by
  obtain ⟨r, t⟩ := x
  cases r with
  | error e2 =>
    obtain rfl : e2 = e := by simpa using h
    rfl
  | ok b => simp at h

lemma seqE_ok_inv {α β : Type} (x : PyResult α) (f : α → PyResult β) (b : β)
    (h : (seqE x f).1 = Except.ok b) :
    ∃ a, x.1 = Except.ok a ∧ (f a).1 = Except.ok b := by
  obtain ⟨r, t⟩ := x
  cases r with
  | error e => simp [seqE] at h
  | ok a => exact ⟨a, rfl, by simpa [seqE] using h⟩

lemma seqE_any_false {α β : Type} (x : PyResult α) (f : α → PyResult β) (q : Event → Bool)
    (hx : x.2.any q = false) (hf : ∀ a, (f a).2.any q = false) :
    (seqE x f).2.any q = false := by
  obtain ⟨r, t⟩ := x
  cases r with
  | error e => simpa using hx
  | ok a =>
    simp only [seqE, List.any_append, Bool.or_eq_false_iff]
    exact ⟨by simpa using hx, hf a⟩

lemma seqE_any_left {α β : Type} (x : PyResult α) (f : α → PyResult β) (q : Event → Bool)
    (hx : x.2.any q = true) : (seqE x f).2.any q = true := by
  obtain ⟨r, t⟩ := x
  cases r with
  | error e => simpa using hx
  | ok a =>
    simp only [seqE, List.any_append, Bool.or_eq_true]
    exact Or.inl (by simpa using hx)

lemma seqE_mem_left {α β : Type} (x : PyResult α) (f : α → PyResult β) (e : Event)
    (h : e ∈ x.2) : e ∈ (seqE x f).2 := by
  obtain ⟨r, t⟩ := x
  cases r with
  | error e2 => simpa using h
  | ok a =>
    simp only [seqE, List.mem_append]
    exact Or.inl (by simpa using h)

lemma stringMk_eq_empty_iff (l : List Char) : String.mk l = "" ↔ l = [] := by
  constructor
  · intro h
    have h2 := congrArg String.data h
    simpa using h2
  · intro h
    rw [h]

lemma hasAudioParse_mk (l : List Char) : hasAudioParse (String.mk l) = !(stripChars l).isEmpty :=
  rfl

lemma stripChars_eq_nil_iff (l : List Char) :
    stripChars l = [] ↔ ∀ c ∈ l, isPySpace c = true := by
  unfold stripChars
  constructor
  · intro h c hc
    rw [List.reverse_eq_nil_iff, List.dropWhile_eq_nil_iff] at h
    by_contra hsp
    have hc2 : c ∈ l.takeWhile isPySpace ++ l.dropWhile isPySpace := by
      rw [List.takeWhile_append_dropWhile]
      exact hc
    rcases List.mem_append.mp hc2 with h1 | h2
    · exact hsp (List.mem_takeWhile_imp h1)
    · exact hsp (h c (List.mem_reverse.mpr h2))
  · intro h
    have h1 : l.dropWhile isPySpace = [] := List.dropWhile_eq_nil_iff.mpr (by simpa using h)
    rw [h1]
    rfl

lemma stripChars_ne_nil_of_mem {l : List Char} {c : Char} (hc : c ∈ l)
    (hs : isPySpace c = false) : stripChars l ≠ [] := by
  intro h
  have h2 := (stripChars_eq_nil_iff l).mp h c hc
  rw [hs] at h2
  exact Bool.false_ne_true h2

lemma natCharsAux_digits :
    ∀ fuel n c, c ∈ natCharsAux fuel n → ∃ k, k < 10 ∧ c = Char.ofNat (48 + k) := by
  intro fuel
  induction fuel with
  | zero => intro n c hc; simp [natCharsAux] at hc
  | succ f ih =>
    intro n c hc
    unfold natCharsAux at hc
    by_cases hn : n < 10
    · rw [if_pos hn] at hc
      simp at hc
      exact ⟨n, hn, hc⟩
    · rw [if_neg hn] at hc
      rcases List.mem_append.mp hc with h1 | h2
      · exact ih _ _ h1
      · simp at h2
        exact ⟨n % 10, Nat.mod_lt _ (by norm_num), h2⟩

lemma natChars_ne_nil (n : Nat) : natChars n ≠ [] := by
  unfold natChars natCharsAux
  by_cases hn : n < 10
  · rw [if_pos hn]; simp
  · rw [if_neg hn]; simp

lemma isPySpace_digitChar {k : Nat} (hk : k < 10) :
    isPySpace (Char.ofNat (48 + k)) = false := by
  interval_cases k <;> decide

lemma isPrefixL_self_append : ∀ (l t : List Char), isPrefixL l (l ++ t) = true := by
  intro l
  induction l with
  | nil => intro t; rfl
  | cons a as ih => intro t; simp [isPrefixL, ih]

lemma containsL_nil_needle (hay : List Char) : containsL [] hay = true := by
  cases hay <;> rfl

lemma containsL_parts : ∀ (pre n suf : List Char), containsL n (pre ++ (n ++ suf)) = true := by
  intro pre
  induction pre with
  | nil =>
    intro n suf
    simp only [List.nil_append]
    cases n with
    | nil => exact containsL_nil_needle _
    | cons a as =>
      have h1 : isPrefixL (a :: as) ((a :: as) ++ suf) = true := isPrefixL_self_append _ _
      simp only [List.cons_append] at h1 ⊢
      simp [containsL, h1]
  | cons c pre ih =>
    intro n suf
    simp only [List.cons_append]
    simp [containsL, ih n suf]

lemma pyIn_specUrlHost (u : String) : pyIn (specUrlHost u) (pyLower u) = true := by
  unfold specUrlHost pyIn afterScheme
  split
  · rename_i rest heq
    have h0 : ((pyLower u).data.takeWhile (fun c => !(c == ':'))) ++
        ((pyLower u).data.dropWhile (fun c => !(c == ':'))) = (pyLower u).data :=
      List.takeWhile_append_dropWhile _ _
    have h1 : (pyLower u).data =
        ((pyLower u).data.takeWhile (fun c => !(c == ':'))) ++ (':' :: '/' :: '/' :: rest) := by
      rw [← heq]
      exact h0.symm
    have h2 : (rest.takeWhile (fun c => !(c == '/') && !(c == ':') && !(c == '?'))) ++
        (rest.dropWhile (fun c => !(c == '/') && !(c == ':') && !(c == '?'))) = rest :=
      List.takeWhile_append_dropWhile _ _
    have hdata : (pyLower u).data =
        (((pyLower u).data.takeWhile (fun c => !(c == ':'))) ++ [':', '/', '/']) ++
        ((rest.takeWhile (fun c => !(c == '/') && !(c == ':') && !(c == '?'))) ++
         (rest.dropWhile (fun c => !(c == '/') && !(c == ':') && !(c == '?')))) := by
      calc (pyLower u).data
          = ((pyLower u).data.takeWhile (fun c => !(c == ':'))) ++
            (':' :: '/' :: '/' :: rest) := h1
        _ = ((pyLower u).data.takeWhile (fun c => !(c == ':'))) ++
            (':' :: '/' :: '/' ::
              ((rest.takeWhile (fun c => !(c == '/') && !(c == ':') && !(c == '?'))) ++
               (rest.dropWhile (fun c => !(c == '/') && !(c == ':') && !(c == '?'))))) := by
            rw [h2]
        _ = (((pyLower u).data.takeWhile (fun c => !(c == ':'))) ++ [':', '/', '/']) ++
            ((rest.takeWhile (fun c => !(c == '/') && !(c == ':') && !(c == '?'))) ++
             (rest.dropWhile (fun c => !(c == '/') && !(c == ':') && !(c == '?')))) := by
            simp
    rw [hdata]
    exact containsL_parts _ _ _
  · exact containsL_nil_needle _

lemma ensure_any_false (q : Event → Bool) (env : Env)
    (h : q (Event.runProc ["ffmpeg", "-version"]) = false) :
    (ensure_ffmpeg_available env).2.any q = false := by
  unfold ensure_ffmpeg_available
  split
  · rfl
  · split <;> simp [h]

lemma prepare_any_false (q : Event → Bool) (env : Env) (u d : String)
    (h1 : ∀ a b, q (Event.copyFile a b) = false)
    (h2 : ∀ a, q (Event.mkdirParents a) = false)
    (h3 : ∀ a b, q (Event.ytdlpDownload a b) = false)
    (h4 : q (Event.runProc (downloadCmd u d)) = false) :
    (prepare_remote_clip env u d).2.any q = false := by
  unfold prepare_remote_clip download_with_ytdlp download_remote_clip
  cases hpe : env.pathExists (env.expanduser u) with
  | true => simp [hpe, h1]
  | false =>
    cases hsu : is_streaming_url u with
    | true =>
      cases hyi : env.ytdlpInstalled with
      | false => simp [hpe, hsu, hyi]
      | true => cases hyo : env.ytdlpOk <;> simp [hpe, hsu, hyi, hyo, h2, h3]
    | false =>
      cases hfp : env.ffmpegOnPath with
      | false => simp [hpe, hsu, hfp]
      | true => cases hdl : env.ffmpegDownloadOk <;> simp [hpe, hsu, hfp, hdl, h4]

lemma probe_any_false (q : Event → Bool) (env : Env) (p : String)
    (h : q (Event.runProc (dimsProbeCmd p)) = false) :
    (probe_video_dimensions env p).2.any q = false := by
  unfold probe_video_dimensions
  split
  · rfl
  · split <;> simp [h]

lemma audio_any_false (q : Event → Bool) (env : Env) (p : String)
    (h : q (Event.runProc (audioProbeCmd p)) = false) :
    (has_audio_stream env p).2.any q = false := by
  unfold has_audio_stream
  split
  · rfl
  · split <;> simp [h]

lemma scale_any_false (q : Event → Bool) (env : Env) (s : String) (t : Int × Int) (d : String)
    (h : q (Event.runProc (scaleCmd s t.1 t.2 d)) = false) :
    (scale_video_to_target env s t d).2.any q = false := by
  unfold scale_video_to_target
  split
  · rfl
  · split <;> simp [h]

lemma concat_any_false (q : Event → Bool) (env : Env) (a r o : String) (i : Bool)
    (h : q (Event.runProc (concatCmd a r o i)) = false) :
    (concat_with_reencoding env a r o i).2.any q = false := by
  unfold concat_with_reencoding
  split
  · rfl
  · split <;> simp [h]

lemma scale_trace_has_scale (env : Env) (s : String) (t : Int × Int) (d : String)
    (hff : env.ffmpegOnPath = true) :
    (scale_video_to_target env s t d).2.any isScaleInvocation = true := by
  unfold scale_video_to_target
  have hs : isScaleInvocation (Event.runProc (scaleCmd s t.1 t.2 d)) = true := by
    simp [isScaleInvocation, scaleCmd]
  cases hsc : env.scaleOk <;> simp [hff, hsc, hs]

lemma mergeBody_nocreate (env : Env) (a b c d : String) :
    (mergeBody env a b c d).2.any isCreateTmp = false := by
  unfold mergeBody
  apply seqE_any_false
  · exact prepare_any_false _ _ _ _ (fun _ _ => rfl) (fun _ => rfl) (fun _ _ => rfl) rfl
  intro _
  apply seqE_any_false
  · exact probe_any_false _ _ _ rfl
  intro ls
  apply seqE_any_false
  · exact probe_any_false _ _ _ rfl
  intro rs
  apply seqE_any_false
  · split
    · apply seqE_any_false
      · exact scale_any_false _ _ _ _ _ rfl
      intro _
      rfl
    · rfl
  intro nr
  apply seqE_any_false
  · exact audio_any_false _ _ _ rfl
  intro la
  apply seqE_any_false
  · exact audio_any_false _ _ _ rfl
  intro ra
  apply seqE_any_false
  · exact concat_any_false _ _ _ _ _ _ rfl
  intro _
  rfl

lemma mergeBody_ok (env : Env) (a b c d : String) (r : String)
    (h : (mergeBody env a b c d).1 = Except.ok r) : r = d := by
  unfold mergeBody at h
  obtain ⟨a1, h1, h⟩ := seqE_ok_inv _ _ _ h
  obtain ⟨a2, h2, h⟩ := seqE_ok_inv _ _ _ h
  obtain ⟨a3, h3, h⟩ := seqE_ok_inv _ _ _ h
  obtain ⟨a4, h4, h⟩ := seqE_ok_inv _ _ _ h
  obtain ⟨a5, h5, h⟩ := seqE_ok_inv _ _ _ h
  obtain ⟨a6, h6, h⟩ := seqE_ok_inv _ _ _ h
  obtain ⟨a7, h7, h⟩ := seqE_ok_inv _ _ _ h
  simpa using h.symm

lemma merge_eq_of_guard_ok (env : Env) (lp ru op : String)
    (hex : env.pathExists (env.expandResolve lp) = true)
    (hff : env.ffmpegOnPath = true) (hv : env.ffmpegVersionOk = true) :
    merge_local_with_remote env lp ru op =
      ((mergeBody env (env.expandResolve lp) ru env.tmpdirName (env.expandResolve op)).1,
       Event.runProc ["ffmpeg", "-version"] ::
       Event.mkdirParents (env.parentOf (env.expandResolve op)) ::
       Event.createTmpDir env.tmpdirName ::
       ((mergeBody env (env.expandResolve lp) ru env.tmpdirName (env.expandResolve op)).2 ++
        [Event.removeTmpDir env.tmpdirName])) := by
  unfold merge_local_with_remote ensure_ffmpeg_available
  simp [hex, hff, hv, seqE]

/-! ## Claim theorems -/

/-- C9: the audio-presence probe reports audio present if and only if the
audio-stream-index inspection's output is non-empty (after stripping, i.e. some
stream index was reported); and the result depends only on presence, so any
non-empty list of reported stream indices — one or many — yields `true` while
an empty list yields `false`. -/
theorem audio_presence_iff :
    (∀ (env : Env) (p out : String), env.ffprobeOnPath = true →
       env.probeAudioOut p = some out →
       (((has_audio_stream env p).1 = Except.ok true ↔ pyStrip out ≠ "") ∧
        ((has_audio_stream env p).1 = Except.ok false ↔ pyStrip out = ""))) ∧
    (∀ idxs : List Nat, hasAudioParse (renderIndices idxs) = true ↔ idxs ≠ []) := by
  constructor
  · intro env p out hf ho
    have hp : (has_audio_stream env p).1 = Except.ok (hasAudioParse out) := by
      unfold has_audio_stream
      simp [hf, ho]
    rw [hp]
    unfold hasAudioParse
    have hiff : pyStrip out = "" ↔ stripChars out.data = [] := stringMk_eq_empty_iff _
    constructor
    · rw [ne_eq, hiff]
      rcases h2 : stripChars out.data with _ | ⟨x, xs⟩ <;> simp [h2]
    · rw [hiff]
      rcases h2 : stripChars out.data with _ | ⟨x, xs⟩ <;> simp [h2]
  · intro idxs
    cases idxs with
    | nil =>
      constructor
      · intro h
        have : hasAudioParse (renderIndices []) = false := rfl
        rw [this] at h
        exact absurd h (by simp)
      · intro h
        exact absurd rfl h
    | cons i rest =>
      constructor
      · intro _
        simp
      · intro _
        have hne : natChars i ≠ [] := natChars_ne_nil i
        obtain ⟨ch, hch⟩ := List.exists_mem_of_ne_nil _ hne
        obtain ⟨k, hk, rfl⟩ := natCharsAux_digits _ _ _ hch
        have hmem : Char.ofNat (48 + k) ∈
            natChars i ++ '\n' :: (rest.foldr (fun j acc => natChars j ++ '\n' :: acc) []) :=
          List.mem_append_left _ hch
        have hsne := stripChars_ne_nil_of_mem hmem (isPySpace_digitChar hk)
        have hr : renderIndices (i :: rest) = String.mk (natChars i ++ '\n' ::
            (rest.foldr (fun j acc => natChars j ++ '\n' :: acc) [])) := rfl
        rw [hr, hasAudioParse_mk]
        rcases h2 : stripChars (natChars i ++ '\n' ::
            (rest.foldr (fun j acc => natChars j ++ '\n' :: acc) [])) with _ | ⟨x, xs⟩
        · exact absurd h2 hsne
        · rfl

/-- Witness for C9 at a concrete environment and concrete stream-index lists. -/
theorem audio_presence_iff_witness :
    ((has_audio_stream envAllOk "a.mp4").1 = Except.ok true ↔ pyStrip "0\n" ≠ "") ∧
    (hasAudioParse (renderIndices [0, 1]) = true ↔ [0, 1] ≠ ([] : List Nat)) := by
  constructor
  · exact (audio_presence_iff.1 envAllOk "a.mp4" "0\n" rfl rfl).1
  · exact audio_presence_iff.2 [0, 1]

/-- C5 counterexample: a dimensions-probe stdout of three non-empty lines does
not fail — `_probe_video_dimensions` returns the first two values — refuting
the claim that any line count other than exactly two yields `ProbeFailed`. -/
theorem probe_dims_three_lines_cex :
    (probe_video_dimensions envThreeLines "f.mp4").1 = Except.ok (10, 20) ∧
    (cleanLines "10\n20\n30\n").length = 3 := by decide

/-- C5 amended: the dimensions probe fails with the `Unable to determine
dimensions` `ProbeFailed` error exactly when fewer than two non-empty lines
appear in the inspection output; with two or more non-empty lines it returns
the first two, parsed as integers. -/
theorem probe_dims_line_count (env : Env) (p out : String)
    (hf : env.ffprobeOnPath = true) (ho : env.probeDimsOut p = some out) :
    ((cleanLines out).length < 2 →
       (probe_video_dimensions env p).1 =
         Except.error (PyExc.runtimeError ("Unable to determine dimensions for " ++ p))) ∧
    (∀ l0 l1 rest w h, cleanLines out = l0 :: l1 :: rest →
       pyInt l0 = some w → pyInt l1 = some h →
       (probe_video_dimensions env p).1 = Except.ok (w, h)) := by
  have hp : (probe_video_dimensions env p).1 = dimsParse p out := by
    unfold probe_video_dimensions
    simp [hf, ho]
  rw [hp]
  unfold dimsParse
  constructor
  · intro hlen
    rcases hcl : cleanLines out with _ | ⟨l0, rest⟩
    · simp [hcl]
    · rcases rest with _ | ⟨l1, rest2⟩
      · simp
      · rw [hcl] at hlen
        simp at hlen
        omega
  · intro l0 l1 rest w h hcl h0 h1
    simp [hcl, h0, h1]

/-- Witness for C5's amended theorem at a concrete environment. -/
theorem probe_dims_line_count_witness :
    (probe_video_dimensions envAllOk "x.mp4").1 = Except.ok (1280, 720) :=
  (probe_dims_line_count envAllOk "x.mp4" "1280\n720\n" rfl rfl).2
    "1280" "720" [] 1280 720 (by decide) (by decide) (by decide)

/-- C3: remote acquisition selects exactly one strategy per call, in priority
order — existing local path ⇒ verbatim copy with no downloader and no network
event; else streaming URL ⇒ yt-dlp; else ffmpeg stream copy — each branch's
result and full effect trace are exactly the chosen strategy's, so no fallback
occurs on failure; and a failed preparation aborts the merge with that error. -/
theorem remote_strategy_exclusive (env : Env) (u dst : String) :
    (env.pathExists (env.expanduser u) = true →
       prepare_remote_clip env u dst =
         ((if env.copyOk then Except.ok ()
           else Except.error (PyExc.osError ("could not copy " ++ env.expanduser u))),
          [Event.copyFile (env.expanduser u) dst])) ∧
    (env.pathExists (env.expanduser u) = false → is_streaming_url u = true →
       prepare_remote_clip env u dst =
         (if env.ytdlpInstalled = false then
            (Except.error (PyExc.runtimeError "yt-dlp is required for streaming URLs like X/YouTube"), [])
          else if env.ytdlpOk then
            (Except.ok (), [Event.mkdirParents (env.parentOf dst), Event.ytdlpDownload u dst])
          else
            (Except.error (PyExc.runtimeError ("yt-dlp failed to download " ++ u)),
             [Event.mkdirParents (env.parentOf dst), Event.ytdlpDownload u dst]))) ∧
    (env.pathExists (env.expanduser u) = false → is_streaming_url u = false →
       prepare_remote_clip env u dst =
         (if env.ffmpegOnPath = false then
            (Except.error (PyExc.fileNotFoundError "ffmpeg"), [])
          else if env.ffmpegDownloadOk then
            (Except.ok (), [Event.runProc (downloadCmd u dst)])
          else
            (Except.error (PyExc.calledProcessError (downloadCmd u dst)),
             [Event.runProc (downloadCmd u dst)]))) ∧
    (∀ lp op e, env.pathExists (env.expandResolve lp) = true →
       env.ffmpegOnPath = true → env.ffmpegVersionOk = true →
       (prepare_remote_clip env u (env.tmpdirName ++ "/remote.mp4")).1 = Except.error e →
       (merge_local_with_remote env lp u op).1 = Except.error e) := by
  refine ⟨?_, ?_, ?_, ?_⟩
  · intro hpe
    unfold prepare_remote_clip
    simp [hpe]
  · intro hpe hsu
    unfold prepare_remote_clip download_with_ytdlp
    simp [hpe, hsu]
  · intro hpe hsu
    unfold prepare_remote_clip download_remote_clip
    simp [hpe, hsu]
  · intro lp op e hex hff hv hperr
    rw [merge_eq_of_guard_ok env lp u op hex hff hv]
    unfold mergeBody
    rw [seqE_eq_error _ _ _ hperr]

/-- Witness for C3 at a concrete environment (existing local path branch). -/
theorem remote_strategy_exclusive_witness :
    prepare_remote_clip envAllOk "clip.mp4" "/tmp/t0/remote.mp4" =
      ((if envAllOk.copyOk then Except.ok ()
        else Except.error (PyExc.osError ("could not copy " ++ envAllOk.expanduser "clip.mp4"))),
       [Event.copyFile (envAllOk.expanduser "clip.mp4") "/tmp/t0/remote.mp4"]) :=
  (remote_strategy_exclusive envAllOk "clip.mp4" "/tmp/t0/remote.mp4").1 rfl

/-- C7: a missing local file fails with the `FileNotFoundError` before the
toolchain guard runs and with an empty effect trace (no temporary directory,
no other filesystem side effect); a failing toolchain guard aborts before any
temporary file or network event, with a `RuntimeError` distinguishable from
generic I/O errors. -/
theorem local_missing_and_guard_first (env : Env) (lp ru op : String) :
    (env.pathExists (env.expandResolve lp) = false →
       merge_local_with_remote env lp ru op =
         (Except.error (PyExc.fileNotFoundError
            ("Local video does not exist: " ++ env.expandResolve lp)), [])) ∧
    (env.pathExists (env.expandResolve lp) = true → env.ffmpegOnPath = false →
       merge_local_with_remote env lp ru op =
         (Except.error (PyExc.runtimeError
            "ffmpeg is required to merge videos; please install it."), [])) ∧
    (env.pathExists (env.expandResolve lp) = true → env.ffmpegOnPath = true →
       env.ffmpegVersionOk = false →
       merge_local_with_remote env lp ru op =
         (Except.error (PyExc.runtimeError "Unable to run ffmpeg binary."),
          [Event.runProc ["ffmpeg", "-version"]])) ∧
    (∀ m m2 : String, PyExc.runtimeError m ≠ PyExc.fileNotFoundError m2 ∧
       PyExc.runtimeError m ≠ PyExc.osError m2) := by
  refine ⟨?_, ?_, ?_, ?_⟩
  · intro h
    unfold merge_local_with_remote
    simp [h]
  · intro hex hff
    unfold merge_local_with_remote ensure_ffmpeg_available
    simp [hex, hff, seqE]
  · intro hex hff hv
    unfold merge_local_with_remote ensure_ffmpeg_available
    simp [hex, hff, hv, seqE]
  · intro m m2
    exact ⟨fun h => PyExc.noConfusion h, fun h => PyExc.noConfusion h⟩

/-- Witness for C7 at a concrete environment with a missing local file. -/
theorem local_missing_and_guard_first_witness :
    merge_local_with_remote envNoLocal "a.mp4" "u" "o.mp4" =
      (Except.error (PyExc.fileNotFoundError
         ("Local video does not exist: " ++ envNoLocal.expandResolve "a.mp4")), []) :=
  (local_missing_and_guard_first envNoLocal "a.mp4" "u" "o.mp4").1 rfl

/-- C4 counterexample: the URL `http://evil.example/youtube.com` has host
`evil.example`, which is not on the streaming-domain list, yet
`_is_streaming_url` classifies it as streaming (the code substring-matches each
domain against the whole lowercased URL, not the host) and the resolver routes
it to the yt-dlp downloader. So "routed to the downloader iff the host matches
the domain list" is false. -/
theorem streaming_routing_host_cex :
    is_streaming_url "http://evil.example/youtube.com" = true ∧
    specUrlHost "http://evil.example/youtube.com" = "evil.example" ∧
    ("evil.example" ∈ STREAMING_DOMAINS → False) ∧
    chosenStrategy envNoLocal "http://evil.example/youtube.com" = Strategy.ytdlp ∧
    (prepare_remote_clip envNoLocal "http://evil.example/youtube.com" "/tmp/t0/remote.mp4").2 =
      [Event.mkdirParents "/root",
       Event.ytdlpDownload "http://evil.example/youtube.com" "/tmp/t0/remote.mp4"] := by
  refine ⟨by decide, by decide, by decide, by decide, by decide⟩

/-- C4 amended: for a remote reference that is not an existing local path, the
reference routes to the yt-dlp downloader if and only if some entry of the
streaming-domain list occurs as a substring anywhere in the lowercased
reference (not a host match); in particular a reference whose host is a listed
domain always routes to the downloader, never the generic stream-copy
strategy. -/
theorem streaming_routing_amended (env : Env) (u dst : String)
    (hne : env.pathExists (env.expanduser u) = false) :
    ((chosenStrategy env u = Strategy.ytdlp) ↔
       ∃ dom ∈ STREAMING_DOMAINS, pyIn dom (pyLower u) = true) ∧
    (specUrlHost u ∈ STREAMING_DOMAINS → chosenStrategy env u = Strategy.ytdlp) ∧
    (chosenStrategy env u = Strategy.ytdlp →
       prepare_remote_clip env u dst = download_with_ytdlp env u dst) ∧
    (chosenStrategy env u = Strategy.ffmpegCopy →
       prepare_remote_clip env u dst = download_remote_clip env u dst) := by
  have hcs : chosenStrategy env u =
      (if is_streaming_url u then Strategy.ytdlp else Strategy.ffmpegCopy) := by
    unfold chosenStrategy
    simp [hne]
  have hany : is_streaming_url u = true ↔
      ∃ dom ∈ STREAMING_DOMAINS, pyIn dom (pyLower u) = true := by
    unfold is_streaming_url
    rw [List.any_eq_true]
  refine ⟨?_, ?_, ?_, ?_⟩
  · rw [hcs]
    by_cases hs : is_streaming_url u = true
    · simp [hs]
      exact hany.mp hs
    · have hs2 : is_streaming_url u = false := by simpa using hs
      simp [hs2]
      intro dom hdom
      by_contra hin
      exact hs (hany.mpr ⟨dom, hdom, by simpa using hin⟩)
  · intro hh
    rw [hcs]
    have hs : is_streaming_url u = true := hany.mpr ⟨specUrlHost u, hh, pyIn_specUrlHost u⟩
    simp [hs]
  · intro hy
    have hs : is_streaming_url u = true := by
      by_contra hs
      have hs2 : is_streaming_url u = false := by simpa using hs
      rw [hcs, hs2] at hy
      simp at hy
    unfold prepare_remote_clip
    simp [hne, hs]
  · intro hy
    have hs : is_streaming_url u = false := by
      by_cases hs : is_streaming_url u = true
      · rw [hcs, hs] at hy
        simp at hy
      · simpa using hs
    unfold prepare_remote_clip
    simp [hne, hs]

/-- Witness for C4's amended theorem: a URL whose host is on the domain list
routes to the downloader. -/
theorem streaming_routing_amended_witness :
    chosenStrategy envNoLocal "https://youtube.com/watch?v=abc" = Strategy.ytdlp :=
  (streaming_routing_amended envNoLocal "https://youtube.com/watch?v=abc"
    "/tmp/t0/remote.mp4" rfl).2.1 (by decide)

/-- C6: the rescale step's single subprocess applies the scale-then-pad `-vf`
filter for the target size and stream-copies audio (`-c:a copy`); and the
modelled semantics of that filter — scale down to fit the target box keeping
the source aspect ratio, then centre-pad — yields positive inner dimensions
within the box, an exactly-preserved aspect ratio, a canvas of exactly the
target size, and equal margins on both sides. -/
theorem rescale_scale_pad_audio (env : Env) (src dst : String) (W H : Int)
    (sw sh w h : ℚ) (hff : env.ffmpegOnPath = true)
    (hsw : 0 < sw) (hsh : 0 < sh) (hw : 0 < w) (hh : 0 < h) :
    (scale_video_to_target env src (W, H) dst).2 = [Event.runProc (scaleCmd src W H dst)] ∧
    (scaleCmd src W H dst)[4]? = some "-vf" ∧
    (scaleCmd src W H dst)[5]? = some (scaleVf W H) ∧
    (scaleCmd src W H dst)[12]? = some "-c:a" ∧
    (scaleCmd src W H dst)[13]? = some "copy" ∧
    (0 < (scaleFitDims sw sh w h).1 ∧ 0 < (scaleFitDims sw sh w h).2) ∧
    ((scaleFitDims sw sh w h).1 ≤ w ∧ (scaleFitDims sw sh w h).2 ≤ h) ∧
    (scaleFitDims sw sh w h).1 * sh = (scaleFitDims sw sh w h).2 * sw ∧
    (padCentered (scaleFitDims sw sh w h).1 (scaleFitDims sw sh w h).2 w h).1 = (w, h) ∧
    (2 * (padCentered (scaleFitDims sw sh w h).1 (scaleFitDims sw sh w h).2 w h).2.1 =
       w - (scaleFitDims sw sh w h).1 ∧
     2 * (padCentered (scaleFitDims sw sh w h).1 (scaleFitDims sw sh w h).2 w h).2.2 =
       h - (scaleFitDims sw sh w h).2) := by
  refine ⟨?_, rfl, rfl, rfl, rfl, ?_⟩
  · unfold scale_video_to_target
    cases hsc : env.scaleOk <;> simp [hff, hsc]
  · unfold scaleFitDims padCentered
    by_cases hc : sw * h ≤ w * sh
    · rw [if_pos hc]
      have hsh0 : sh ≠ 0 := ne_of_gt hsh
      refine ⟨⟨by positivity, hh⟩, ⟨?_, le_refl h⟩, ?_, rfl, by ring, by ring⟩
      · rw [mul_div_assoc'] at *
        exact (div_le_iff₀ hsh).mpr hc
      · field_simp
        ring
    · rw [if_neg hc]
      have hlt : w * sh < sw * h := lt_of_not_le hc
      have hsw0 : sw ≠ 0 := ne_of_gt hsw
      refine ⟨⟨hw, by positivity⟩, ⟨le_refl w, ?_⟩, ?_, rfl, by ring, by ring⟩
      · rw [mul_div_assoc'] at *
        exact (div_le_iff₀ hsw).mpr (by linarith [hlt])
      · field_simp
        ring

/-- Witness for C6 at concrete sizes: a 16:9 source into a 4:3 box. -/
theorem rescale_scale_pad_audio_witness :
    (scale_video_to_target envAllOk "s.mp4" (1280, 720) "d.mp4").2 =
      [Event.runProc (scaleCmd "s.mp4" 1280 720 "d.mp4")] :=
  (rescale_scale_pad_audio envAllOk "s.mp4" "d.mp4" 1280 720 16 9 4 3 rfl
    (by norm_num) (by norm_num) (by norm_num) (by norm_num)).1

/-- C8: whenever a merge call creates the scoped temporary working directory,
that directory is the one handed out by `tempfile.TemporaryDirectory()` and its
recursive removal is the very last effect of the call — on the success path and
on every failure path, since the removal is appended unconditionally by the
context manager. -/
theorem tmpdir_always_removed (env : Env) (lp ru op d : String)
    (h : Event.createTmpDir d ∈ (merge_local_with_remote env lp ru op).2) :
    d = env.tmpdirName ∧
    (merge_local_with_remote env lp ru op).2.getLast? =
      some (Event.removeTmpDir env.tmpdirName) := by
  by_cases hex : env.pathExists (env.expandResolve lp) = true
  · by_cases hff : env.ffmpegOnPath = true
    · by_cases hv : env.ffmpegVersionOk = true
      · rw [merge_eq_of_guard_ok env lp ru op hex hff hv] at h ⊢
        constructor
        · simp at h
          rcases h with h | h
          · exact h
          · have hbody := mergeBody_nocreate env (env.expandResolve lp) ru
              env.tmpdirName (env.expandResolve op)
            rw [List.any_eq_false] at hbody
            have h2 := hbody _ h
            simp [isCreateTmp] at h2
        · have hre : Event.runProc ["ffmpeg", "-version"] ::
              Event.mkdirParents (env.parentOf (env.expandResolve op)) ::
              Event.createTmpDir env.tmpdirName ::
              ((mergeBody env (env.expandResolve lp) ru env.tmpdirName
                 (env.expandResolve op)).2 ++ [Event.removeTmpDir env.tmpdirName]) =
              (Event.runProc ["ffmpeg", "-version"] ::
               Event.mkdirParents (env.parentOf (env.expandResolve op)) ::
               Event.createTmpDir env.tmpdirName ::
               (mergeBody env (env.expandResolve lp) ru env.tmpdirName
                 (env.expandResolve op)).2) ++ [Event.removeTmpDir env.tmpdirName] := by
            simp
          rw [hre, List.getLast?_concat]
      · have hv2 : env.ffmpegVersionOk = false := by simpa using hv
        unfold merge_local_with_remote ensure_ffmpeg_available at h
        simp [hex, hff, hv2, seqE] at h
    · have hff2 : env.ffmpegOnPath = false := by simpa using hff
      unfold merge_local_with_remote ensure_ffmpeg_available at h
      simp [hex, hff2, seqE] at h
  · have hex2 : env.pathExists (env.expandResolve lp) = false := by simpa using hex
    unfold merge_local_with_remote at h
    simp [hex2] at h

/-- Witness for C8 at a concrete, fully successful run. -/
theorem tmpdir_always_removed_witness :
    "/tmp/t0" = envAllOk.tmpdirName ∧
    (merge_local_with_remote envAllOk "in.mp4" "u" "o.mp4").2.getLast? =
      some (Event.removeTmpDir envAllOk.tmpdirName) :=
  tmpdir_always_removed envAllOk "in.mp4" "u" "o.mp4" "/tmp/t0" (by decide)

/-- C10: once the local file exists and the toolchain guard passes, the first
three effects are, in order, the guard's version probe, creation of the parent
directories of the resolved output path, and only then creation of the
temporary directory — so the output's parent directory is created before the
remote reference is resolved and persists even when a later stage fails; any
successful result equals the resolved output path, which can differ textually
from the path passed in. -/
theorem output_path_setup (env : Env) (lp ru op : String)
    (hex : env.pathExists (env.expandResolve lp) = true)
    (hff : env.ffmpegOnPath = true) (hv : env.ffmpegVersionOk = true) :
    ((merge_local_with_remote env lp ru op).2.take 3 =
       [Event.runProc ["ffmpeg", "-version"],
        Event.mkdirParents (env.parentOf (env.expandResolve op)),
        Event.createTmpDir env.tmpdirName]) ∧
    Event.mkdirParents (env.parentOf (env.expandResolve op)) ∈
      (merge_local_with_remote env lp ru op).2 ∧
    (∀ r, (merge_local_with_remote env lp ru op).1 = Except.ok r →
       r = env.expandResolve op) ∧
    (∃ (envE : Env) (lpE ruE opE r : String),
       (merge_local_with_remote envE lpE ruE opE).1 = Except.ok r ∧ r ≠ opE) := by
  rw [merge_eq_of_guard_ok env lp ru op hex hff hv]
  refine ⟨rfl, by simp, ?_, ?_⟩
  · intro r hr
    exact mergeBody_ok env (env.expandResolve lp) ru env.tmpdirName
      (env.expandResolve op) r hr
  · exact ⟨envAllOk, "in.mp4", "u", "out.mp4", "/root/out.mp4", by decide, by decide⟩

/-- Witness for C10 at a concrete environment. -/
theorem output_path_setup_witness :
    (merge_local_with_remote envAllOk "in.mp4" "u" "o.mp4").2.take 3 =
      [Event.runProc ["ffmpeg", "-version"],
       Event.mkdirParents (envAllOk.parentOf (envAllOk.expandResolve "o.mp4")),
       Event.createTmpDir envAllOk.tmpdirName] :=
  (output_path_setup envAllOk "in.mp4" "u" "o.mp4" rfl rfl rfl).1

/-- C2: given successful probes of both clips, a rescale subprocess appears in
the merge's effect trace if and only if the local and remote `(width, height)`
pairs differ under exact integer equality; and when they are equal, the
concatenation consumes the resolved remote file itself, unchanged. -/
theorem rescale_iff_dims_differ (env : Env) (lp ru op : String) (ls rs : Int × Int)
    (hex : env.pathExists (env.expandResolve lp) = true)
    (hff : env.ffmpegOnPath = true) (hv : env.ffmpegVersionOk = true)
    (hprep : (prepare_remote_clip env ru (env.tmpdirName ++ "/remote.mp4")).1 = Except.ok ())
    (hpl : (probe_video_dimensions env (env.expandResolve lp)).1 = Except.ok ls)
    (hpr : (probe_video_dimensions env (env.tmpdirName ++ "/remote.mp4")).1 = Except.ok rs) :
    ((merge_local_with_remote env lp ru op).2.any isScaleInvocation = true ↔ ls ≠ rs) ∧
    (ls = rs → ∀ la ra : Bool,
       (has_audio_stream env (env.expandResolve lp)).1 = Except.ok la →
       (has_audio_stream env (env.tmpdirName ++ "/remote.mp4")).1 = Except.ok ra →
       Event.runProc (concatCmd (env.expandResolve lp) (env.tmpdirName ++ "/remote.mp4")
         (env.expandResolve op) (la && ra)) ∈ (merge_local_with_remote env lp ru op).2) := by
  rw [merge_eq_of_guard_ok env lp ru op hex hff hv]
  constructor
  · simp only [List.any_cons, List.any_append]
    have e1 : isScaleInvocation (Event.runProc ["ffmpeg", "-version"]) = false := rfl
    have e2 : isScaleInvocation
        (Event.mkdirParents (env.parentOf (env.expandResolve op))) = false := rfl
    have e3 : isScaleInvocation (Event.createTmpDir env.tmpdirName) = false := rfl
    have e4 : isScaleInvocation (Event.removeTmpDir env.tmpdirName) = false := rfl
    rw [e1, e2, e3, e4]
    simp only [List.any_nil, Bool.false_or, Bool.or_false]
    unfold mergeBody
    rw [seqE_eq_ok _ _ _ hprep]
    simp only []
    rw [List.any_append,
      prepare_any_false isScaleInvocation env ru (env.tmpdirName ++ "/remote.mp4")
        (fun _ _ => rfl) (fun _ => rfl) (fun _ _ => rfl) rfl,
      Bool.false_or]
    rw [seqE_eq_ok _ _ _ hpl]
    simp only []
    rw [List.any_append, probe_any_false isScaleInvocation env _ rfl, Bool.false_or]
    rw [seqE_eq_ok _ _ _ hpr]
    simp only []
    rw [List.any_append, probe_any_false isScaleInvocation env _ rfl, Bool.false_or]
    by_cases hd : ls = rs
    · rw [if_neg (by simp [hd])]
      have htail : (seqE ((Except.ok (env.tmpdirName ++ "/remote.mp4"), []) : PyResult String)
          (fun normalizedRemote =>
            seqE (has_audio_stream env (env.expandResolve lp)) (fun localHasAudio =>
            seqE (has_audio_stream env normalizedRemote) (fun remoteHasAudio =>
            seqE (concat_with_reencoding env (env.expandResolve lp) normalizedRemote
                    (env.expandResolve op) (localHasAudio && remoteHasAudio)) (fun _ =>
            (Except.ok (env.expandResolve op), [])))))).2.any isScaleInvocation = false := by
        apply seqE_any_false
        · rfl
        intro nr
        apply seqE_any_false
        · exact audio_any_false _ _ _ rfl
        intro la
        apply seqE_any_false
        · exact audio_any_false _ _ _ rfl
        intro ra
        apply seqE_any_false
        · exact concat_any_false _ _ _ _ _ _ rfl
        intro _
        rfl
      rw [htail]
      simp [hd]
    · rw [if_pos (by simpa using hd)]
      simp only [hd, iff_true, ne_eq, not_false_iff]
      apply seqE_any_left
      apply seqE_any_left
      exact scale_trace_has_scale env _ ls _ hff
  · intro hd la ra hal har
    simp only [List.mem_cons]
    refine Or.inr (Or.inr (Or.inr ?_))
    rw [List.mem_append]
    refine Or.inl ?_
    unfold mergeBody
    rw [seqE_eq_ok _ _ _ hprep]
    simp only []
    apply List.mem_append_right
    rw [seqE_eq_ok _ _ _ hpl]
    simp only []
    apply List.mem_append_right
    rw [seqE_eq_ok _ _ _ hpr]
    simp only []
    apply List.mem_append_right
    rw [if_neg (by simp [hd])]
    rw [seqE_eq_ok _ _ _ (rfl : ((Except.ok (env.tmpdirName ++ "/remote.mp4"), [])
      : PyResult String).1 = Except.ok (env.tmpdirName ++ "/remote.mp4"))]
    simp only []
    apply List.mem_append_right
    rw [seqE_eq_ok _ _ _ hal]
    simp only []
    apply List.mem_append_right
    rw [seqE_eq_ok _ _ _ har]
    simp only []
    apply List.mem_append_right
    apply seqE_mem_left
    have hct : (concat_with_reencoding env (env.expandResolve lp)
        (env.tmpdirName ++ "/remote.mp4") (env.expandResolve op) (la && ra)).2 =
        [Event.runProc (concatCmd (env.expandResolve lp) (env.tmpdirName ++ "/remote.mp4")
           (env.expandResolve op) (la && ra))] := by
      unfold concat_with_reencoding
      cases hco : env.concatOk <;> simp [hff, hco]
    rw [hct]
    exact List.mem_singleton.mpr rfl

/-- Witness for C2 at a concrete environment whose clips probe at different
dimensions, so the rescale invocation appears in the trace. -/
theorem rescale_iff_dims_differ_witness :
    (merge_local_with_remote envMismatch "in.mp4" "u" "o.mp4").2.any isScaleInvocation = true ↔
      ((1280, 720) : Int × Int) ≠ ((640, 480) : Int × Int) :=
  (rescale_iff_dims_differ envMismatch "in.mp4" "u" "o.mp4" (1280, 720) (640, 480)
    rfl rfl rfl (by decide) (by decide) (by decide)).1

/-- C1: in a run that reaches concatenation, the flag handed to the
concatenation step is exactly the logical AND of the two audio-presence
results (probed on the local clip and on the possibly-rescaled remote clip),
and the filter graph used is the video+audio one if and only if both results
are `true`, the video-only one otherwise. -/
theorem concat_audio_mode (env : Env) (lp ru op : String) (ls rs : Int × Int) (la ra : Bool)
    (hex : env.pathExists (env.expandResolve lp) = true)
    (hff : env.ffmpegOnPath = true) (hv : env.ffmpegVersionOk = true)
    (hprep : (prepare_remote_clip env ru (env.tmpdirName ++ "/remote.mp4")).1 = Except.ok ())
    (hpl : (probe_video_dimensions env (env.expandResolve lp)).1 = Except.ok ls)
    (hpr : (probe_video_dimensions env (env.tmpdirName ++ "/remote.mp4")).1 = Except.ok rs)
    (hsc : env.scaleOk = true)
    (hal : (has_audio_stream env (env.expandResolve lp)).1 = Except.ok la)
    (har : (has_audio_stream env (if ls = rs then env.tmpdirName ++ "/remote.mp4"
              else env.tmpdirName ++ "/remote_scaled.mp4")).1 = Except.ok ra) :
    Event.runProc (concatCmd (env.expandResolve lp)
        (if ls = rs then env.tmpdirName ++ "/remote.mp4"
         else env.tmpdirName ++ "/remote_scaled.mp4")
        (env.expandResolve op) (la && ra)) ∈ (merge_local_with_remote env lp ru op).2 ∧
    (concatFilterGraph (la && ra) = "[0:v][0:a][1:v][1:a]concat=n=2:v=1:a=1[v][a]" ↔
       (la = true ∧ ra = true)) ∧
    (concatFilterGraph (la && ra) = "[0:v][1:v]concat=n=2:v=1:a=0[v]" ↔
       ¬(la = true ∧ ra = true)) := by
  refine ⟨?_, by cases la <;> cases ra <;> decide, by cases la <;> cases ra <;> decide⟩
  rw [merge_eq_of_guard_ok env lp ru op hex hff hv]
  simp only [List.mem_cons]
  refine Or.inr (Or.inr (Or.inr ?_))
  rw [List.mem_append]
  refine Or.inl ?_
  unfold mergeBody
  rw [seqE_eq_ok _ _ _ hprep]
  simp only []
  apply List.mem_append_right
  rw [seqE_eq_ok _ _ _ hpl]
  simp only []
  apply List.mem_append_right
  rw [seqE_eq_ok _ _ _ hpr]
  simp only []
  apply List.mem_append_right
  by_cases hd : ls = rs
  · rw [if_neg (by simp [hd])]
    rw [if_pos hd] at har ⊢
    rw [seqE_eq_ok _ _ _ (rfl : ((Except.ok (env.tmpdirName ++ "/remote.mp4"), [])
      : PyResult String).1 = Except.ok (env.tmpdirName ++ "/remote.mp4"))]
    simp only []
    apply List.mem_append_right
    rw [seqE_eq_ok _ _ _ hal]
    simp only []
    apply List.mem_append_right
    rw [seqE_eq_ok _ _ _ har]
    simp only []
    apply List.mem_append_right
    apply seqE_mem_left
    have hct : (concat_with_reencoding env (env.expandResolve lp)
        (env.tmpdirName ++ "/remote.mp4") (env.expandResolve op) (la && ra)).2 =
        [Event.runProc (concatCmd (env.expandResolve lp) (env.tmpdirName ++ "/remote.mp4")
           (env.expandResolve op) (la && ra))] := by
      unfold concat_with_reencoding
      cases hco : env.concatOk <;> simp [hff, hco]
    rw [hct]
    exact List.mem_singleton.mpr rfl
  · rw [if_pos (by simpa using hd)]
    rw [if_neg hd] at har ⊢
    have hsr : (scale_video_to_target env (env.tmpdirName ++ "/remote.mp4") ls
        (env.tmpdirName ++ "/remote_scaled.mp4")).1 = Except.ok () := by
      unfold scale_video_to_target
      simp [hff, hsc]
    have hx : (seqE (scale_video_to_target env (env.tmpdirName ++ "/remote.mp4") ls
        (env.tmpdirName ++ "/remote_scaled.mp4"))
        (fun _ => ((Except.ok (env.tmpdirName ++ "/remote_scaled.mp4"), [])
          : PyResult String))).1 = Except.ok (env.tmpdirName ++ "/remote_scaled.mp4") := by
      rw [seqE_eq_ok _ _ _ hsr]
    rw [seqE_eq_ok _ _ _ hx]
    simp only []
    apply List.mem_append_right
    rw [seqE_eq_ok _ _ _ hal]
    simp only []
    apply List.mem_append_right
    rw [seqE_eq_ok _ _ _ har]
    simp only []
    apply List.mem_append_right
    apply seqE_mem_left
    have hct : (concat_with_reencoding env (env.expandResolve lp)
        (env.tmpdirName ++ "/remote_scaled.mp4") (env.expandResolve op) (la && ra)).2 =
        [Event.runProc (concatCmd (env.expandResolve lp) (env.tmpdirName ++ "/remote_scaled.mp4")
           (env.expandResolve op) (la && ra))] := by
      unfold concat_with_reencoding
      cases hco : env.concatOk <;> simp [hff, hco]
    rw [hct]
    exact List.mem_singleton.mpr rfl

/-- Witness for C1 at a concrete environment where the remote clip needs
rescaling and has no audio while the local clip has audio, so the AND is
`false` and the video-only graph is selected. -/
theorem concat_audio_mode_witness :
    Event.runProc (concatCmd (envMismatch.expandResolve "in.mp4")
        (if ((1280, 720) : Int × Int) = ((640, 480) : Int × Int)
         then envMismatch.tmpdirName ++ "/remote.mp4"
         else envMismatch.tmpdirName ++ "/remote_scaled.mp4")
        (envMismatch.expandResolve "o.mp4") (true && false)) ∈
      (merge_local_with_remote envMismatch "in.mp4" "u" "o.mp4").2 :=
  (concat_audio_mode envMismatch "in.mp4" "u" "o.mp4" (1280, 720) (640, 480) true false
    rfl rfl rfl (by decide) (by decide) (by decide) rfl (by decide) (by decide)).1

end VideoMerger
